import Mathlib

/-!
Verification model of the OKX-OS XLayer trading bot (src/index.js).

The development shallowly embeds the parts of the program the claims are
about: the JavaScript number pipeline used by the withdrawal amount
conversion (parseFloat, Number toString, bignumber.js), the per-user
session record, the withdrawal handler, the address creation routine,
the signed-request header builder, and the free-text message gate.
Remote responses, address validation and the local signing routine are
supplied by an explicit environment record, since they are external
effects of the program.
-/

namespace XLayerBot

/-! ### Exact rational arithmetic

Executable rationals with a fuel-based Euclid gcd, so that every
operation reduces inside the kernel.  All values are kept in canonical
form (positive denominator, reduced) by the smart constructor mkQ. -/

def ngcdAux : Nat → Nat → Nat → Nat
  | 0, _, b => b
  | f + 1, a, b => if a = 0 then b else ngcdAux f (b % a) a

def ngcd (a b : Nat) : Nat := ngcdAux (a + b + 1) a b

structure Q where
  num : Int
  den : Int
deriving DecidableEq, Repr

def mkQ (n d : Int) : Q :=
  if d = 0 then ⟨0, 1⟩
  else
    let n₁ := if d < 0 then -n else n
    let d₁ := if d < 0 then -d else d
    let g : Int := (ngcd n₁.natAbs d₁.natAbs : Nat)
    if g = 0 then ⟨0, 1⟩ else ⟨n₁ / g, d₁ / g⟩

def intQ (n : Int) : Q := ⟨n, 1⟩

def Q.add (a b : Q) : Q := mkQ (a.num * b.den + b.num * a.den) (a.den * b.den)

def Q.sub (a b : Q) : Q := mkQ (a.num * b.den - b.num * a.den) (a.den * b.den)

def Q.mul (a b : Q) : Q := mkQ (a.num * b.num) (a.den * b.den)

def Q.div (a b : Q) : Q := mkQ (a.num * b.den) (a.den * b.num)

def Q.neg (a : Q) : Q := ⟨-a.num, a.den⟩

def Q.qabs (a : Q) : Q := ⟨|a.num|, a.den⟩

def Q.le (a b : Q) : Bool := a.num * b.den ≤ b.num * a.den

def Q.lt (a b : Q) : Bool := a.num * b.den < b.num * a.den

/-- Floor of a canonical rational as an integer. -/
def Q.floor (a : Q) : Int := Int.fdiv a.num a.den

def powNatAux (b : Nat) : Nat → Nat → Nat
  | 0, _ => 1
  | f + 1, e =>
    if e = 0 then 1
    else
      let h := powNatAux b f (e / 2)
      if e % 2 = 0 then h * h else h * h * b

/-- Natural-number power by repeated squaring (kernel-friendly depth). -/
def powNat (b k : Nat) : Nat := powNatAux b k k

/-- Two to an integer power, as an exact rational. -/
def pow2Q (k : Int) : Q :=
  if 0 ≤ k then intQ ((powNat 2 k.toNat : Nat) : Int) else mkQ 1 ((powNat 2 (-k).toNat : Nat) : Int)

/-- Ten to an integer power, as an exact rational. -/
def pow10Q (k : Int) : Q :=
  if 0 ≤ k then intQ ((powNat 10 k.toNat : Nat) : Int) else mkQ 1 ((powNat 10 (-k).toNat : Nat) : Int)

/-- Round a rational to the nearest integer, ties to even. -/
def roundHalfEvenZ (q : Q) : Int :=
  let f := q.floor
  let r := q.sub (intQ f)
  if r.lt (mkQ 1 2) then f
  else if (mkQ 1 2).lt r then f + 1
  else if f % 2 = 0 then f else f + 1

def natLog2Aux : Nat → Nat → Nat
  | 0, _ => 0
  | f + 1, n => if n ≤ 1 then 0 else natLog2Aux f (n / 2) + 1

/-- Floor of the base-2 logarithm of a positive natural number. -/
def natLog2 (n : Nat) : Nat := natLog2Aux n n

def qexp2Aux (q : Q) : Nat → Nat
  | 0 => 0
  | f + 1 => if (intQ 1).le (q.mul (intQ 2)) then 1 else qexp2Aux (q.mul (intQ 2)) f + 1

/-- Floor of the base-2 logarithm of a positive rational. -/
def qlog2 (q : Q) : Int :=
  if (intQ 1).le q then (natLog2 q.floor.toNat : Int)
  else -(qexp2Aux q q.den.toNat : Int)

/-! ### JavaScript number model

JsNum is the value space of a JavaScript number as far as this program
observes it: NaN, the two infinities, or an exact binary64 value held as
a rational. -/

inductive JsNum where
  | nan
  | inf
  | ninf
  | val (q : Q)
deriving DecidableEq, Repr

/-- Round an exact rational to the nearest IEEE-754 binary64 value
(round to nearest, ties to even), as JavaScript number conversion does;
overflow gives an infinity and subnormals round on the 2 ^ (-1074) grid. -/
def roundDouble (q : Q) : JsNum :=
  if q = intQ 0 then .val (intQ 0)
  else
    let a := q.qabs
    let neg := q.lt (intQ 0)
    let e := qlog2 a
    let r :=
      if e < -1022 then
        (intQ (roundHalfEvenZ (a.mul (pow2Q 1074)))).mul (pow2Q (-1074))
      else
        (intQ (roundHalfEvenZ (a.div (pow2Q (e - 52))))).mul (pow2Q (e - 52))
    if (pow2Q 1024).le r then (if neg then .ninf else .inf)
    else .val (if neg then r.neg else r)

/-! ### parseFloat -/

def digitVal (c : Char) : Nat := c.toNat - 48

def takeDigitsAux : List Char → List Char × List Char
  | [] => ([], [])
  | c :: cs =>
    if c.isDigit then
      let p := takeDigitsAux cs
      (c :: p.1, p.2)
    else ([], c :: cs)

def digitsToNat (ds : List Char) : Nat :=
  ds.foldl (fun acc c => acc * 10 + digitVal c) 0

def leadsWith : List Char → List Char → Bool
  | [], _ => true
  | _ :: _, [] => false
  | a :: as, b :: bs => a == b && leadsWith as bs

/-- Exact value of the longest decimal-literal prefix of the input:
digits, optional fraction digits, optional exponent part; none when not
even one digit is present. -/
def parseDecValue (cs : List Char) : Option Q :=
  let p1 := takeDigitsAux cs
  let intDs := p1.1
  let p2 :=
    match p1.2 with
    | '.' :: t => takeDigitsAux t
    | r => ([], r)
  let fracDs := p2.1
  if intDs.isEmpty && fracDs.isEmpty then none
  else
    let mantissa := (intQ (digitsToNat intDs : Nat)).add
      ((intQ (digitsToNat fracDs : Nat)).mul (pow10Q (-(fracDs.length : Int))))
    let expo : Int :=
      match p2.2 with
      | c :: t =>
        if c == 'e' || c == 'E' then
          match t with
          | '+' :: t2 => ((digitsToNat (takeDigitsAux t2).1 : Nat) : Int)
          | '-' :: t2 => -((digitsToNat (takeDigitsAux t2).1 : Nat) : Int)
          | t2 => ((digitsToNat (takeDigitsAux t2).1 : Nat) : Int)
        else 0
      | [] => 0
    some (mantissa.mul (pow10Q expo))

/-- Model of JavaScript parseFloat: skip leading whitespace, read an
optional sign, then an Infinity literal or the longest decimal literal
prefix; NaN when nothing parses.  The exact decimal value is rounded to
binary64 as JavaScript does. -/
def parseFloatJs (s : String) : JsNum :=
  let cs := s.data.dropWhile (fun c => c.isWhitespace)
  let sn :=
    match cs with
    | '-' :: t => (true, t)
    | '+' :: t => (false, t)
    | r => (false, r)
  if leadsWith ['I', 'n', 'f', 'i', 'n', 'i', 't', 'y'] sn.2 then
    if sn.1 then .ninf else .inf
  else
    match parseDecValue sn.2 with
    | none => .nan
    | some q => roundDouble (if sn.1 then q.neg else q)

/-! ### Number toString and bignumber.js model -/

def natDigitsAux : Nat → Nat → List Char
  | 0, _ => []
  | f + 1, n => if n = 0 then [] else natDigitsAux f (n / 10) ++ [Nat.digitChar (n % 10)]

/-- Decimal digit characters of a natural number. -/
def natDigits (n : Nat) : List Char := if n = 0 then ['0'] else natDigitsAux n n

def qexp10Aux (q : Q) : Nat → Nat
  | 0 => 0
  | f + 1 => if (intQ 1).le (q.mul (intQ 10)) then 1 else qexp10Aux (q.mul (intQ 10)) f + 1

/-- Floor of the base-10 logarithm of a positive rational. -/
def qlog10 (q : Q) : Int :=
  if (intQ 1).le q then ((natDigits q.floor.toNat).length : Int) - 1
  else -(qexp10Aux q q.den.toNat : Int)

/-- Strip trailing zero factors of ten from a digits/exponent pair. -/
def stripZeros : Nat → Int × Int → Int × Int
  | 0, p => p
  | f + 1, (n, e) => if n % 10 = 0 ∧ n ≠ 0 then stripZeros f (n / 10, e + 1) else (n, e)

/-- Nearest decimal to q with the given number of significant digits,
as a digits/exponent pair. -/
def decCandidate (q : Q) (prec : Nat) : Int × Int :=
  let e := qlog10 q - prec + 1
  let n := roundHalfEvenZ (q.div (pow10Q e))
  if n = (powNat 10 prec : Nat) then (((powNat 10 (prec - 1) : Nat) : Int), e + 1) else (n, e)

def decValue (p : Int × Int) : Q := (intQ p.1).mul (pow10Q p.2)

def shortestDecAux (q : Q) : Nat → Nat → Int × Int
  | 0, _ => (1, 0)
  | f + 1, prec =>
    let c := decCandidate q prec
    if roundDouble (decValue c) = JsNum.val q then stripZeros 40 c
    else shortestDecAux q f (prec + 1)

/-- Shortest decimal representation of a positive binary64 value: the
fewest significant digits that convert back to exactly that value, as
used by the ECMAScript Number toString algorithm. -/
def shortestDec (q : Q) : Int × Int := shortestDecAux q 20 1

/-- Positional or exponential rendering of a positive decimal n * 10^e.
The decimal point position pp decides the notation; lo is the smallest
pp still rendered positionally (ECMAScript uses -5, bignumber.js -6). -/
def formatPosDec (lo : Int) (n e : Int) : List Char :=
  let ds := natDigits n.toNat
  let k : Int := (ds.length : Int)
  let pp := k + e
  if k ≤ pp ∧ pp ≤ 21 then ds ++ List.replicate (pp - k).toNat '0'
  else if 0 < pp ∧ pp ≤ 21 then ds.take pp.toNat ++ '.' :: ds.drop pp.toNat
  else if lo ≤ pp ∧ pp ≤ 0 then '0' :: '.' :: (List.replicate (-pp).toNat '0' ++ ds)
  else
    let ex := pp - 1
    let head := ds.take 1 ++ (if ds.length ≤ 1 then [] else '.' :: ds.drop 1)
    head ++ 'e' :: (if 0 ≤ ex then '+' :: natDigits ex.toNat else '-' :: natDigits (-ex).toNat)

/-- ECMAScript Number toString (radix 10) for a binary64 value. -/
def jsNumToString (x : JsNum) : String :=
  match x with
  | .nan => "NaN"
  | .inf => "Infinity"
  | .ninf => "-Infinity"
  | .val q =>
    if q = intQ 0 then "0"
    else if q.lt (intQ 0) then
      String.mk ('-' :: formatPosDec (-5) (shortestDec q.neg).1 (shortestDec q.neg).2)
    else String.mk (formatPosDec (-5) (shortestDec q).1 (shortestDec q).2)

def decompose10Up (fuel : Nat) (q : Q) : Q × Int :=
  match fuel with
  | 0 => (q, 0)
  | f + 1 =>
    if intQ q.floor = q then (q, 0)
    else
      let r := decompose10Up f (q.mul (intQ 10))
      (r.1, r.2 - 1)

/-- Digits/exponent decomposition of a positive terminating decimal. -/
def decompose10 (q : Q) : Int × Int :=
  let r := decompose10Up q.den.toNat q
  stripZeros 100 (r.1.floor, r.2)

/-- bignumber.js value of a JavaScript number: bignumber.js converts a
number argument through its String(v) decimal representation, so a
finite value becomes the exact decimal shown by Number toString. -/
def bigNumOfJs (x : JsNum) : JsNum :=
  match x with
  | .val q =>
    if q = intQ 0 then .val (intQ 0)
    else if q.lt (intQ 0) then .val (decValue (shortestDec q.neg)).neg
    else .val (decValue (shortestDec q))
  | other => other

/-- bignumber.js toString (base 10, default EXPONENTIAL_AT bounds). -/
def bigToString (x : JsNum) : String :=
  match x with
  | .nan => "NaN"
  | .inf => "Infinity"
  | .ninf => "-Infinity"
  | .val q =>
    if q = intQ 0 then "0"
    else if q.lt (intQ 0) then
      String.mk ('-' :: formatPosDec (-6) (decompose10 q.neg).1 (decompose10 q.neg).2)
    else String.mk (formatPosDec (-6) (decompose10 q).1 (decompose10 q).2)

/-- The txAmountInWei computation of handleWithdrawal: the template
string of (new BigNumber(amount)).times(1e18), where amount is the
stored JavaScript number and 1e18 converts exactly to 10^18. -/
def txAmountInWei (amount : JsNum) : String :=
  match bigNumOfJs amount with
  | .val q => bigToString (.val (q.mul (intQ ((powNat 10 18 : Nat) : Int))))
  | .nan => "NaN"
  | .inf => "Infinity"
  | .ninf => "-Infinity"

/-! ### Session state, events and environment -/

/-- Per-user session record, the userStates entry of src/index.js.
Option models a field that may be absent from the JavaScript object. -/
structure UserState where
  address : Option String := none
  privateKey : Option String := none
  publicKey : Option String := none
  messageId : Option Nat := none
  withdrawalRequested : Bool := false
  withdrawalAmount : Option JsNum := none
deriving DecidableEq, Repr

/-- JavaScript truthiness of a number: false for 0 and NaN. -/
def jsNumTruthy (x : JsNum) : Bool :=
  match x with
  | .nan => false
  | .val q => q ≠ intQ 0
  | _ => true

/-- Truthiness test the code applies to userState.withdrawalAmount. -/
def amountFalsy (x : Option JsNum) : Bool :=
  match x with
  | none => true
  | some v => !(jsNumTruthy v)

def jsIsNaN (x : JsNum) : Bool :=
  match x with
  | .nan => true
  | _ => false

/-- The comparison w <= 0 on a JavaScript number (false on NaN). -/
def jsLeZero (x : JsNum) : Bool :=
  match x with
  | .nan => false
  | .inf => false
  | .ninf => true
  | .val q => q.le (intQ 0)

/-- Reading userState.withdrawalAmount in the destination branch. -/
def getAmount (x : Option JsNum) : JsNum :=
  match x with
  | none => .nan
  | some v => v

/-- String interpolation of a possibly absent JavaScript string. -/
def jsShowOptStr (x : Option String) : String :=
  match x with
  | none => "undefined"
  | some s => s

/-- Transaction parameters assembled before local signing. -/
structure TxParams where
  toAddrParam : String
  value : String
  nonce : String
  gasPrice : String
  gasLimit : String
  chainId : String
deriving DecidableEq, Repr

/-- A request body sent to the remote wallet API.  Each constructor
carries exactly the fields serialized into the corresponding JSON
body in src/index.js. -/
inductive NetRequest where
  | signInfoReq (chainIndex fromAddr toAddr txAmount : String)
  | broadcastReq (signedTx chainIndex address : String)
deriving DecidableEq, Repr

/-- Observable actions of a handler, in program order.  reply is
ctx.reply (no session change); sendMsg is sendReply, which also stores
the new message id in the session; request is an outbound fetch. -/
inductive Event where
  | reply (text : String)
  | sendMsg (text : String)
  | request (r : NetRequest)
deriving DecidableEq, Repr

structure SignInfoResp where
  code : String
  msg : String
  nonce : String
  gasPriceNormal : String
  gasLimit : String
deriving DecidableEq, Repr

structure BroadcastResp where
  code : String
  msg : String
  orderId : String
deriving DecidableEq, Repr

/-- External collaborators of the withdrawal flow: the wallet library
(address validation and local signing, where signing returns an error
when the library throws) and the remote API responses of this attempt.
newMessageId n is the Telegram id of the n-th message the handler
sends. -/
structure Env where
  validAddress : String → Bool
  signTransaction : Nat → Option String → TxParams → Except String String
  signInfo : SignInfoResp
  broadcastResult : BroadcastResp
  newMessageId : Nat → Nat

def xLayerChainId : String := "196"

def invalidAmountMsg : String := "Invalid withdrawal amount. Please enter a positive number."

def invalidDestMsg : String := "Invalid destination address. Please try again."

def withdrawErrorMsg : String := "An error occurred while initiating the withdrawal."

def askDestinationMsg : String :=
  "Please respond with the XLayer address where you would like to receive the OKB."

def initiatingMsg : String := "Initiating withdrawal..."

def menuOnlyMsg : String := "Please select an option from the menu."

def successMsg (amount dest orderId : String) : String :=
  "Successfully initiated withdrawal of " ++ amount ++ " OKB to " ++ dest
    ++ ". Transaction ID: " ++ orderId

/-! ### The withdrawal handler -/

/-- Transaction parameters assembled right before local signing: the
destination and amount from the session, everything else from the
sign-info response. -/
def txParamsOf (env : Env) (destination wei : String) : TxParams :=
  { toAddrParam := destination
    value := wei
    nonce := env.signInfo.nonce
    gasPrice := env.signInfo.gasPriceNormal
    gasLimit := env.signInfo.gasLimit
    chainId := xLayerChainId }

/-- Model of handleWithdrawal (src/index.js lines 265-387): given the
environment, the session and the incoming text, produce the updated
session and the ordered list of observable events.  Error paths follow
the try/catch of the source: a non-zero response code or a signing
failure is thrown and caught, producing the generic error reply; the
clearUserState calls of the source are commented out, so no branch
clears the session. -/
def handleWithdrawal (env : Env) (s : UserState) (text : String) : UserState × List Event :=
  if amountFalsy s.withdrawalAmount then
    let w := parseFloatJs text
    if jsIsNaN w || jsLeZero w then
      (s, [.reply invalidAmountMsg])
    else
      ({ s with messageId := some (env.newMessageId 0), withdrawalAmount := some w },
       [.sendMsg askDestinationMsg])
  else
    let destination := text
    if !env.validAddress destination then
      (s, [.reply invalidDestMsg])
    else
      let s₁ := { s with messageId := some (env.newMessageId 0) }
      let wei := txAmountInWei (getAmount s.withdrawalAmount)
      let req₁ := NetRequest.signInfoReq xLayerChainId (jsShowOptStr s.address) destination wei
      if env.signInfo.code ≠ "0" then
        (s₁, [.sendMsg initiatingMsg, .request req₁, .reply withdrawErrorMsg])
      else
        match env.signTransaction 196 s.privateKey (txParamsOf env destination wei) with
        | .error _ =>
          (s₁, [.sendMsg initiatingMsg, .request req₁, .reply withdrawErrorMsg])
        | .ok signedTx =>
          let req₂ := NetRequest.broadcastReq signedTx xLayerChainId (jsShowOptStr s.address)
          if env.broadcastResult.code = "0" then
            ({ s₁ with messageId := some (env.newMessageId 1) },
             [.sendMsg initiatingMsg, .request req₁, .request req₂,
              .sendMsg (successMsg (jsNumToString (getAmount s.withdrawalAmount))
                destination env.broadcastResult.orderId)])
          else
            (s₁, [.sendMsg initiatingMsg, .request req₁, .request req₂,
              .reply withdrawErrorMsg])

/-- Model of handleInitialWithdrawal: mark a withdrawal as requested and
prompt for the amount. -/
def handleInitialWithdrawal (env : Env) (s : UserState) : UserState × List Event :=
  ({ s with withdrawalRequested := true, messageId := some (env.newMessageId 0) },
   [.sendMsg "Please respond with the amount of OKB you want to withdraw."])

/-! ### Free-text routing -/

/-- An incoming Telegram text message: its text and, when it is a reply,
the id of the message it replies to. -/
structure IncomingText where
  text : String
  replyToId : Option Nat
deriving DecidableEq, Repr

/-- The gate of handleUserState: the message must be a reply to the
message id stored in the session. -/
def replyGate (msg : IncomingText) (s : UserState) : Bool :=
  match msg.replyToId, s.messageId with
  | some r, some m => r == m
  | _, _ => false

/-- Model of the message:text handler wrapped in handleUserState:
gated free text reaches the withdrawal handler only when a withdrawal
was requested; anything else only produces the menu reminder. -/
def onMessageText (env : Env) (s : UserState) (msg : IncomingText) : UserState × List Event :=
  if replyGate msg s then
    if s.withdrawalRequested then handleWithdrawal env s msg.text
    else (s, [])
  else
    (s, [.reply menuOnlyMsg])

/-! ### Address creation -/

/-- Fresh wallet material: what one run of bip39.generateMnemonic plus
the derivation calls of getOrCreateAddress produces. -/
structure WalletGen where
  mnemonic : String
  privateKey : String
  address : String
  publicKey : String

def createAddress (g : WalletGen) (s : UserState) : String × UserState :=
  (g.address,
   { s with address := some g.address
            privateKey := some g.privateKey
            publicKey := some g.publicKey })

/-- Model of getOrCreateAddress: return the stored address when the
session has a truthy one, otherwise derive and store fresh material.
The truthiness test mirrors the JavaScript check, on which an empty
string would count as absent. -/
def getOrCreateAddress (g : WalletGen) (s : UserState) : String × UserState :=
  match s.address with
  | some a => if a = "" then createAddress g s else (a, s)
  | none => createAddress g s

/-! ### Signed request headers -/

structure ApiCreds where
  apiKey : String
  secretKey : String
  passphrase : String
  projectId : String

structure Headers where
  contentType : String
  accessKey : String
  accessSign : String
  accessTimestamp : String
  accessPassphrase : String
  accessProject : String
deriving DecidableEq, Repr

/-- Model of getHeaders (src/index.js lines 67-83).  hmac models the
base64 HMAC-SHA256 digest, kept abstract; timestamp models the single
new Date().toISOString() value the function computes. -/
def getHeaders (hmac : String → String → String) (creds : ApiCreds)
    (timestamp method path : String) (body : String := "") : Headers :=
  let signString := timestamp ++ method.toUpper ++ path ++ body
  { contentType := "application/json"
    accessKey := creds.apiKey
    accessSign := hmac creds.secretKey signString
    accessTimestamp := timestamp
    accessPassphrase := creds.passphrase
    accessProject := creds.projectId }

/-! ### Concrete fixtures for witnesses and counterexamples -/

/-- Environment of a fully successful attempt. -/
def testEnv : Env :=
  { validAddress := fun _ => true
    signTransaction := fun _ _ _ => .ok "0xsignedtx"
    signInfo :=
      { code := "0", msg := "", nonce := "7", gasPriceNormal := "1000", gasLimit := "21000" }
    broadcastResult := { code := "0", msg := "", orderId := "order-123" }
    newMessageId := fun n => 100 + n }

/-- Environment whose address validation rejects every input. -/
def rejectEnv : Env := { testEnv with validAddress := fun _ => false }

/-- Environment whose sign-info call answers with a non-zero code. -/
def signFailEnv : Env :=
  { testEnv with signInfo :=
      { code := "51000", msg := "param error", nonce := "", gasPriceNormal := "", gasLimit := "" } }

/-- Session of a user who pressed Withdraw and has not yet entered an
amount. -/
def testState : UserState :=
  { address := some "0xFROM", privateKey := some "0xKEY", publicKey := some "0xPUB"
    messageId := some 5, withdrawalRequested := true, withdrawalAmount := none }

/-- Session of a user whose withdrawal amount 2.5 is already captured. -/
def pendingState : UserState :=
  { testState with messageId := some 100, withdrawalAmount := some (.val (mkQ 5 2)) }

/-! ### Claims -/

/-- Claim C1 (code bug): the spec demands that every accepted decimal
amount converts to base units exactly, with 1.000000000000000001
yielding 1000000000000000001; the code captures the amount with
parseFloat, which collapses it to the binary64 value 1, so the flow
sends txAmount 1000000000000000000 to sign-info instead. -/
theorem claim1_float_base_unit_bug :
    (handleWithdrawal testEnv
        ((handleWithdrawal testEnv testState "1.000000000000000001").1) "0xDEST").2
      = [.sendMsg initiatingMsg,
         .request (.signInfoReq "196" "0xFROM" "0xDEST" "1000000000000000000"),
         .request (.broadcastReq "0xsignedtx" "196" "0xFROM"),
         .sendMsg (successMsg "1" "0xDEST" "order-123")]
    ∧ txAmountInWei (parseFloatJs "1.000000000000000001") = "1000000000000000000"
    ∧ txAmountInWei (parseFloatJs "1.000000000000000001") ≠ "1000000000000000001" := by
  refine ⟨by decide, by decide, by decide⟩

/-- Claim C3: a destination that fails address validation terminates
the attempt with only the invalid-address reply: the session is
unchanged and no sign-info or broadcast request is issued. -/
theorem claim3_invalid_destination_no_network (env : Env) (s : UserState) (text : String)
    (h₁ : amountFalsy s.withdrawalAmount = false)
    (h₂ : env.validAddress text = false) :
    handleWithdrawal env s text = (s, [.reply invalidDestMsg])
    ∧ ∀ r : NetRequest, Event.request r ∉ (handleWithdrawal env s text).2 := by
  have he : handleWithdrawal env s text = (s, [.reply invalidDestMsg]) := by
    unfold handleWithdrawal
    rw [h₁]
    simp [h₂]
  exact ⟨he, by simp [he]⟩

/-- Witness for claim C3 at a concrete rejecting environment. -/
theorem claim3_witness :
    amountFalsy pendingState.withdrawalAmount = false
    ∧ rejectEnv.validAddress "not-an-address" = false
    ∧ handleWithdrawal rejectEnv pendingState "not-an-address"
        = (pendingState, [.reply invalidDestMsg]) :=
  ⟨by decide, rfl,
    (claim3_invalid_destination_no_network rejectEnv pendingState "not-an-address"
      (by decide) rfl).1⟩

/-- Claim C4: an amount input that does not parse as a positive number
leaves the session untouched and only produces the invalid-amount
reply, so the user can retry at the same prompt. -/
theorem claim4_invalid_amount_no_mutation (env : Env) (s : UserState) (text : String)
    (h₁ : amountFalsy s.withdrawalAmount = true)
    (h₂ : (jsIsNaN (parseFloatJs text) || jsLeZero (parseFloatJs text)) = true) :
    handleWithdrawal env s text = (s, [.reply invalidAmountMsg]) := by
  unfold handleWithdrawal
  rw [h₁]
  simp [h₂]

/-- Witness for claim C4 at the inputs named by the claim. -/
theorem claim4_witness :
    handleWithdrawal testEnv testState "abc" = (testState, [.reply invalidAmountMsg])
    ∧ handleWithdrawal testEnv testState "-5" = (testState, [.reply invalidAmountMsg])
    ∧ handleWithdrawal testEnv testState "0" = (testState, [.reply invalidAmountMsg]) :=
  ⟨claim4_invalid_amount_no_mutation testEnv testState "abc" (by decide) (by decide),
   claim4_invalid_amount_no_mutation testEnv testState "-5" (by decide) (by decide),
   claim4_invalid_amount_no_mutation testEnv testState "0" (by decide) (by decide)⟩

/-- After any call, the session address holds exactly the returned
address. -/
theorem getOrCreate_sets_address (g : WalletGen) (s : UserState) :
    (getOrCreateAddress g s).2.address = some (getOrCreateAddress g s).1 := by
  unfold getOrCreateAddress createAddress
  cases hs : s.address with
  | none => simp
  | some a =>
    by_cases ha : a = ""
    · simp [ha]
    · simp [ha, hs]

/-- A call on a session with a truthy stored address returns it and
changes nothing. -/
theorem getOrCreate_existing (g : WalletGen) (s : UserState) (a : String)
    (hs : s.address = some a) (ha : a ≠ "") :
    getOrCreateAddress g s = (a, s) := by
  unfold getOrCreateAddress
  rw [hs]
  simp [ha]

/-- Claim C8: getOrCreateAddress is idempotent: a second call returns
exactly the address of the first call and leaves the whole session,
keys included, unchanged, for any fresh material the second call could
have drawn. -/
theorem claim8_get_or_create_idempotent (g₁ g₂ : WalletGen) (s : UserState)
    (h : (getOrCreateAddress g₁ s).1 ≠ "") :
    getOrCreateAddress g₂ (getOrCreateAddress g₁ s).2
      = ((getOrCreateAddress g₁ s).1, (getOrCreateAddress g₁ s).2) :=
  getOrCreate_existing g₂ (getOrCreateAddress g₁ s).2 (getOrCreateAddress g₁ s).1
    (getOrCreate_sets_address g₁ s) h

/-- Witness for claim C8 with two distinct generations. -/
theorem claim8_witness :
    (getOrCreateAddress ⟨"m1", "k1", "0xA1", "p1"⟩ {}).1 ≠ ""
    ∧ getOrCreateAddress ⟨"m2", "k2", "0xA2", "p2"⟩
        (getOrCreateAddress ⟨"m1", "k1", "0xA1", "p1"⟩ {}).2
      = ((getOrCreateAddress ⟨"m1", "k1", "0xA1", "p1"⟩ {}).1,
         (getOrCreateAddress ⟨"m1", "k1", "0xA1", "p1"⟩ {}).2) :=
  ⟨by decide,
   claim8_get_or_create_idempotent ⟨"m1", "k1", "0xA1", "p1"⟩ ⟨"m2", "k2", "0xA2", "p2"⟩ {}
     (by decide)⟩

/-- Claim C9: the produced headers carry a signature computed by the
keyed digest over exactly timestamp, uppercased method, path and body
concatenated, an absent body signs as the empty string, and the
timestamp inside the signed string is the very value of the timestamp
header. -/
theorem claim9_headers_signature (hmac : String → String → String) (creds : ApiCreds)
    (timestamp method path body : String) :
    (getHeaders hmac creds timestamp method path body).accessSign
        = hmac creds.secretKey (timestamp ++ method.toUpper ++ path ++ body)
    ∧ (getHeaders hmac creds timestamp method path body).accessTimestamp = timestamp
    ∧ getHeaders hmac creds timestamp method path
        = getHeaders hmac creds timestamp method path "" :=
  ⟨rfl, rfl, rfl⟩

/-- Claim C10: free text that is not a reply to the last bot message id
never reaches the withdrawal handler: the session, its withdrawal
fields included, is unchanged and the user only gets the menu
reminder, also while a withdrawal is pending. -/
theorem claim10_reply_gate (env : Env) (s : UserState) (msg : IncomingText)
    (h : replyGate msg s = false) :
    onMessageText env s msg = (s, [.reply menuOnlyMsg]) := by
  unfold onMessageText
  rw [h]
  simp

/-- Witness for claim C10: a non-reply message while a withdrawal is
pending. -/
theorem claim10_witness :
    replyGate ⟨"2.5", none⟩ pendingState = false
    ∧ pendingState.withdrawalRequested = true
    ∧ onMessageText testEnv pendingState ⟨"2.5", none⟩
        = (pendingState, [.reply menuOnlyMsg]) :=
  ⟨rfl, rfl, claim10_reply_gate testEnv pendingState ⟨"2.5", none⟩ rfl⟩

/-! ### Helper evaluation lemmas -/

theorem parse_two_point_five : parseFloatJs "2.5" = .val (mkQ 5 2) := by decide

theorem parse_two_point_five_pos :
    (jsIsNaN (parseFloatJs "2.5") || jsLeZero (parseFloatJs "2.5")) = false := by decide

theorem wei_two_point_five :
    txAmountInWei (JsNum.val (mkQ 5 2)) = "2500000000000000000" := by decide

theorem str_two_point_five : jsNumToString (JsNum.val (mkQ 5 2)) = "2.5" := by decide

theorem amount_captured_not_falsy :
    amountFalsy (some (JsNum.val (mkQ 5 2))) = false := by decide

/-- Capturing the amount 2.5 stores the binary64 value 5/2 and prompts
for the destination. -/
theorem capture_two_point_five (env : Env) (s : UserState)
    (h₁ : amountFalsy s.withdrawalAmount = true) :
    handleWithdrawal env s "2.5"
      = ({ s with messageId := some (env.newMessageId 0),
                  withdrawalAmount := some (.val (mkQ 5 2)) },
         [.sendMsg askDestinationMsg]) := by
  unfold handleWithdrawal
  rw [h₁]
  simp [parse_two_point_five, parse_two_point_five_pos]
  exact ⟨by decide, by decide⟩

/-- Counterexample to claim C2: a withdrawal that reaches terminal
success (order id reported to the user) leaves withdrawalRequested and
withdrawalAmount still set: no terminal path clears them, the
clearUserState calls being commented out in the source. -/
theorem claim2_counterexample :
    (handleWithdrawal testEnv pendingState "0xDEST").2
      = [.sendMsg initiatingMsg,
         .request (.signInfoReq "196" "0xFROM" "0xDEST" "2500000000000000000"),
         .request (.broadcastReq "0xsignedtx" "196" "0xFROM"),
         .sendMsg (successMsg "2.5" "0xDEST" "order-123")]
    ∧ (handleWithdrawal testEnv pendingState "0xDEST").1.withdrawalRequested = true
    ∧ (handleWithdrawal testEnv pendingState "0xDEST").1.withdrawalAmount
        = some (.val (mkQ 5 2)) := by
  refine ⟨by decide, by decide, by decide⟩

/-- Claim C2 as amended: every terminal outcome of a withdrawal attempt
(success, or failure of validation, sign-info, signing or broadcast)
leaves the pending-withdrawal fields withdrawalRequested and
withdrawalAmount unchanged rather than clearing them, while address and
privateKey are also left unchanged. -/
theorem claim2_amended_no_clear (env : Env) (s : UserState) (text : String)
    (h : amountFalsy s.withdrawalAmount = false) :
    (handleWithdrawal env s text).1.withdrawalRequested = s.withdrawalRequested
    ∧ (handleWithdrawal env s text).1.withdrawalAmount = s.withdrawalAmount
    ∧ (handleWithdrawal env s text).1.address = s.address
    ∧ (handleWithdrawal env s text).1.privateKey = s.privateKey := by
  unfold handleWithdrawal
  rw [h]
  simp only [Bool.false_eq_true, if_false]
  split
  · simp
  · split
    · simp
    · split
      · simp
      · split
        · simp
        · simp

/-- Witness for the amended claim C2 at a concrete successful flow. -/
theorem claim2_amended_witness :
    amountFalsy pendingState.withdrawalAmount = false
    ∧ (handleWithdrawal testEnv pendingState "0xDEST").1.withdrawalRequested
        = pendingState.withdrawalRequested
    ∧ (handleWithdrawal testEnv pendingState "0xDEST").1.withdrawalAmount
        = pendingState.withdrawalAmount
    ∧ (handleWithdrawal testEnv pendingState "0xDEST").1.address = pendingState.address
    ∧ (handleWithdrawal testEnv pendingState "0xDEST").1.privateKey
        = pendingState.privateKey :=
  ⟨by decide, claim2_amended_no_clear testEnv pendingState "0xDEST" (by decide)⟩

/-- Claim C5: every request body a withdrawal attempt sends is either
the sign-info body, made of exactly the chain id, the session address,
the destination and the amount (an expression in which the private key
does not occur), or the broadcast body, made of exactly the locally
signed transaction bytes, the chain id and the session address: the
private key itself is never placed in a request body, it only enters
the local signing function. -/
theorem claim5_private_key_never_sent (env : Env) (s : UserState) (text : String)
    (r : NetRequest) (hr : Event.request r ∈ (handleWithdrawal env s text).2) :
    r = .signInfoReq xLayerChainId (jsShowOptStr s.address) text
          (txAmountInWei (getAmount s.withdrawalAmount))
    ∨ ∃ stx, env.signTransaction 196 s.privateKey
          (txParamsOf env text (txAmountInWei (getAmount s.withdrawalAmount))) = .ok stx
        ∧ r = .broadcastReq stx xLayerChainId (jsShowOptStr s.address) := by
  unfold handleWithdrawal at hr
  by_cases h₁ : amountFalsy s.withdrawalAmount = true
  · rw [if_pos h₁] at hr
    by_cases h₂ : (jsIsNaN (parseFloatJs text) || jsLeZero (parseFloatJs text)) = true
    · simp [h₂] at hr
    · simp [h₂] at hr
  · rw [if_neg h₁] at hr
    by_cases h₃ : env.validAddress text
    · simp only [h₃] at hr
      by_cases h₄ : env.signInfo.code = "0"
      · simp only [h₄, ne_eq, not_true_eq_false, if_false, reduceIte] at hr
        rcases hsig : env.signTransaction 196 s.privateKey
            (txParamsOf env text (txAmountInWei (getAmount s.withdrawalAmount))) with e | stx
        · rw [hsig] at hr
          simp at hr
          exact Or.inl hr
        · rw [hsig] at hr
          by_cases h₅ : env.broadcastResult.code = "0"
          · simp [h₅] at hr
            rcases hr with hr | hr
            · exact Or.inl hr
            · exact Or.inr ⟨stx, rfl, hr⟩
          · simp [h₅] at hr
            rcases hr with hr | hr
            · exact Or.inl hr
            · exact Or.inr ⟨stx, rfl, hr⟩
      · simp [h₄] at hr
        exact Or.inl hr
    · simp [h₃] at hr

/-- Witness for claim C5 at a concrete flow containing both requests. -/
theorem claim5_witness :
    Event.request (.broadcastReq "0xsignedtx" "196" "0xFROM")
        ∈ (handleWithdrawal testEnv pendingState "0xDEST").2
    ∧ ((.broadcastReq "0xsignedtx" "196" "0xFROM")
          = NetRequest.signInfoReq xLayerChainId (jsShowOptStr pendingState.address) "0xDEST"
              (txAmountInWei (getAmount pendingState.withdrawalAmount))
        ∨ ∃ stx, testEnv.signTransaction 196 pendingState.privateKey
              (txParamsOf testEnv "0xDEST"
                (txAmountInWei (getAmount pendingState.withdrawalAmount))) = .ok stx
            ∧ (.broadcastReq "0xsignedtx" "196" "0xFROM")
                = NetRequest.broadcastReq stx xLayerChainId (jsShowOptStr pendingState.address)) :=
  ⟨by decide,
   claim5_private_key_never_sent testEnv pendingState "0xDEST"
     (.broadcastReq "0xsignedtx" "196" "0xFROM") (by decide)⟩

/-- Claim C6: with amount 2.5 and a valid destination, the flow sends
sign-info with txAmount 2500000000000000000, broadcasts only after the
sign-info success code, and reports a final message carrying the order
id of the broadcast response. -/
theorem claim6_successful_flow (env : Env) (s : UserState) (dest stx : String)
    (h₁ : amountFalsy s.withdrawalAmount = true)
    (hv : env.validAddress dest = true)
    (hs : env.signInfo.code = "0")
    (hsig : env.signTransaction 196 s.privateKey
        (txParamsOf env dest "2500000000000000000") = .ok stx)
    (hb : env.broadcastResult.code = "0") :
    (handleWithdrawal env (handleWithdrawal env s "2.5").1 dest).2
      = [.sendMsg initiatingMsg,
         .request (.signInfoReq xLayerChainId (jsShowOptStr s.address) dest
           "2500000000000000000"),
         .request (.broadcastReq stx xLayerChainId (jsShowOptStr s.address)),
         .sendMsg (successMsg "2.5" dest env.broadcastResult.orderId)]
    ∧ ∃ p, successMsg "2.5" dest env.broadcastResult.orderId
        = p ++ env.broadcastResult.orderId := by
  rw [capture_two_point_five env s h₁]
  refine ⟨?_, ⟨_, rfl⟩⟩
  unfold handleWithdrawal
  simp only [amount_captured_not_falsy, Bool.false_eq_true, if_false]
  simp [hv, hs, getAmount, wei_two_point_five, str_two_point_five, hsig, hb]

/-- Witness for claim C6 at the concrete successful environment. -/
theorem claim6_witness :
    (handleWithdrawal testEnv (handleWithdrawal testEnv testState "2.5").1 "0xDEST").2
      = [.sendMsg initiatingMsg,
         .request (.signInfoReq xLayerChainId (jsShowOptStr testState.address) "0xDEST"
           "2500000000000000000"),
         .request (.broadcastReq "0xsignedtx" xLayerChainId (jsShowOptStr testState.address)),
         .sendMsg (successMsg "2.5" "0xDEST" testEnv.broadcastResult.orderId)]
    ∧ ∃ p, successMsg "2.5" "0xDEST" testEnv.broadcastResult.orderId
        = p ++ testEnv.broadcastResult.orderId :=
  claim6_successful_flow testEnv testState "0xDEST" "0xsignedtx"
    (by decide) rfl rfl rfl rfl

/-- The generic withdrawal failure reply is distinct from every
possible success message. -/
theorem err_ne_success (a d o : String) : withdrawErrorMsg ≠ successMsg a d o := by
  intro h
  have h₂ : withdrawErrorMsg.data.head? = (successMsg a d o).data.head? := by rw [h]
  have h₃ : (successMsg a d o).data.head? = some 'S' := by
    unfold successMsg
    rw [String.data_append, String.data_append, String.data_append,
      String.data_append, String.data_append]
    rfl
  rw [h₃] at h₂
  exact absurd h₂ (by decide)

/-- Claim C7: a non-zero code from sign-info stops the attempt before
signing and broadcast, a non-zero code from broadcast stops it before
the success report, and in both cases the user gets the failure reply,
which differs from every success message. -/
theorem claim7_nonzero_code_blocks (env : Env) (s : UserState) (text : String)
    (h₁ : amountFalsy s.withdrawalAmount = false)
    (hv : env.validAddress text = true) :
    (env.signInfo.code ≠ "0" →
      (handleWithdrawal env s text).2
        = [.sendMsg initiatingMsg,
           .request (.signInfoReq xLayerChainId (jsShowOptStr s.address) text
             (txAmountInWei (getAmount s.withdrawalAmount))),
           .reply withdrawErrorMsg])
    ∧ (∀ stx, env.signInfo.code = "0" →
        env.signTransaction 196 s.privateKey
            (txParamsOf env text (txAmountInWei (getAmount s.withdrawalAmount))) = .ok stx →
        env.broadcastResult.code ≠ "0" →
        (handleWithdrawal env s text).2
          = [.sendMsg initiatingMsg,
             .request (.signInfoReq xLayerChainId (jsShowOptStr s.address) text
               (txAmountInWei (getAmount s.withdrawalAmount))),
             .request (.broadcastReq stx xLayerChainId (jsShowOptStr s.address)),
             .reply withdrawErrorMsg])
    ∧ ∀ a d o, withdrawErrorMsg ≠ successMsg a d o := by
  refine ⟨?_, ?_, err_ne_success⟩
  · intro hc
    unfold handleWithdrawal
    rw [h₁]
    simp [hv, hc]
  · intro stx hc hsig hb
    unfold handleWithdrawal
    rw [h₁]
    simp [hv, hc, hsig, hb]

/-- Witness for claim C7 at the concrete failing sign-info
environment. -/
theorem claim7_witness :
    (signFailEnv.signInfo.code ≠ "0" →
      (handleWithdrawal signFailEnv pendingState "0xDEST").2
        = [.sendMsg initiatingMsg,
           .request (.signInfoReq xLayerChainId (jsShowOptStr pendingState.address) "0xDEST"
             (txAmountInWei (getAmount pendingState.withdrawalAmount))),
           .reply withdrawErrorMsg])
    ∧ (∀ stx, signFailEnv.signInfo.code = "0" →
        signFailEnv.signTransaction 196 pendingState.privateKey
            (txParamsOf signFailEnv "0xDEST"
              (txAmountInWei (getAmount pendingState.withdrawalAmount))) = .ok stx →
        signFailEnv.broadcastResult.code ≠ "0" →
        (handleWithdrawal signFailEnv pendingState "0xDEST").2
          = [.sendMsg initiatingMsg,
             .request (.signInfoReq xLayerChainId (jsShowOptStr pendingState.address) "0xDEST"
               (txAmountInWei (getAmount pendingState.withdrawalAmount))),
             .request (.broadcastReq stx xLayerChainId (jsShowOptStr pendingState.address)),
             .reply withdrawErrorMsg])
    ∧ ∀ a d o, withdrawErrorMsg ≠ successMsg a d o :=
  claim7_nonzero_code_blocks signFailEnv pendingState "0xDEST" (by decide) rfl

end XLayerBot
